import Mathlib

/-!
Verification of the `nano-wallet-js` core: a shallow embedding of the
wallet state machine (`src/wallet/WalletController.ts`), the RPC failover
client (`src/rpc/RpcController.ts`) and the generic state store
(`src/BaseController.ts`), together with theorems settling the frozen
claims about the natural-language specification.

JavaScript values are modelled as follows: raw-unit amounts are decimal
strings manipulated through arbitrary-precision integer arithmetic (the
code uses `bignumber.js`, which is exact on integers); JS `parseInt(s,16)`
returns an IEEE-754 double, modelled as the mathematical integer rounded
to 53 bits of precision (round to nearest, ties to even), `none` standing
for `NaN`; thrown JS error values are modelled by `JsErr` carrying whether
the value is a `DOMException`, its `name` and its `message`.
-/

namespace NanoWalletProof

/-- A thrown JavaScript error value: whether it is a `DOMException`
(`isDOM`), its `name` and its `message`.  `new Error(m)` is `mkErr m`. -/
structure JsErr where
  isDOM : Bool
  name : String
  message : String
deriving Repr, DecidableEq

/-- `new Error(message)` — a plain (non-DOMException) error. -/
def mkErr (message : String) : JsErr :=
  { isDOM := false, name := "Error", message := message }

/-! ## JS numeric strings (bignumber.js on integer raw amounts) -/

/-- Value of a decimal digit character, `none` if not a digit. -/
def digitVal (c : Char) : Option Nat :=
  if '0' ≤ c ∧ c ≤ '9' then some (c.toNat - '0'.toNat) else none

/-- All characters are decimal digits. -/
def allDigits (s : String) : Bool :=
  s.data.all fun c => (digitVal c).isSome

/-- Numeric value of a non-empty all-digit string. -/
def natOfDigits : List Char → Nat
  | [] => 0
  | c :: cs => ((digitVal c).getD 0) * 10 ^ cs.length + natOfDigits cs

/-- Parse a decimal integer string as produced/consumed by
`bignumber.js` on integer raw amounts: optional leading `-`, then
decimal digits; anything else is `NaN` (`none`). -/
def parseDecInt (s : String) : Option Int :=
  match s.data with
  | [] => none
  | '-' :: rest =>
      if rest ≠ [] ∧ rest.all (fun c => (digitVal c).isSome) then
        some (-(natOfDigits rest : Int))
      else none
  | l =>
      if l.all (fun c => (digitVal c).isSome) then some (natOfDigits l : Int)
      else none

/-- Render an integer the way `BigNumber#toString` renders integer values
(the clone sets `EXPONENTIAL_AT: 1e9`, so plain decimal notation). -/
def intToString (n : Int) : String :=
  if n < 0 then "-" ++ Nat.repr n.natAbs else Nat.repr n.natAbs

/-- `TunedBigNumber(a).plus(b).toString()` on integer strings. -/
def bigPlus (a b : String) : String :=
  match parseDecInt a, parseDecInt b with
  | some x, some y => intToString (x + y)
  | _, _ => "NaN"

/-- `TunedBigNumber(a).minus(b).toString()` on integer strings. -/
def bigMinus (a b : String) : String :=
  match parseDecInt a, parseDecInt b with
  | some x, some y => intToString (x - y)
  | _, _ => "NaN"

/-! ## JS `parseInt(s, 16)` -/

/-- Value of a hexadecimal digit character, `none` if not a hex digit. -/
def hexDigitVal (c : Char) : Option Nat :=
  if '0' ≤ c ∧ c ≤ '9' then some (c.toNat - '0'.toNat)
  else if 'a' ≤ c ∧ c ≤ 'f' then some (c.toNat - 'a'.toNat + 10)
  else if 'A' ≤ c ∧ c ≤ 'F' then some (c.toNat - 'A'.toNat + 10)
  else none

/-- Exact unsigned value of the longest hexadecimal-digit prefix of `s`;
`none` when there is no leading hex digit (JS `parseInt` yields `NaN`). -/
def hexPrefixVal (s : String) : Option Nat :=
  let digits := s.data.takeWhile fun c => (hexDigitVal c).isSome
  if digits = [] then none
  else some (digits.foldl (fun acc c => acc * 16 + (hexDigitVal c).getD 0) 0)

/-- Binary length of `n` (`0` for `0`), computed with explicit fuel so
that it reduces by kernel evaluation; `4096` bits of fuel covers every
value a hex threshold string of practical length can denote. -/
def bitLenAux : Nat → Nat → Nat
  | 0, _ => 0
  | fuel + 1, n => if n = 0 then 0 else bitLenAux fuel (n / 2) + 1

/-- Binary length of `n`. -/
def bitLen (n : Nat) : Nat := bitLenAux 4096 n

/-- Round a natural number to the nearest IEEE-754 double (53-bit
mantissa, round to nearest, ties to even).  Exact below `2 ^ 53`. -/
def roundToDouble (n : Nat) : Nat :=
  if n < 2 ^ 53 then n
  else
    let k := bitLen n - 53
    let q := n / 2 ^ k
    let r := n % 2 ^ k
    let half := 2 ^ (k - 1)
    if r > half ∨ (r = half ∧ q % 2 = 1) then (q + 1) * 2 ^ k else q * 2 ^ k

/-- JS `parseInt(s, 16)`: the exact integer value of the hex prefix,
converted to a double.  `none` is `NaN`. -/
def jsParseHex (s : String) : Option Nat :=
  (hexPrefixVal s).map roundToDouble

/-- JS `parseInt(a,16) >= parseInt(b,16)` (any comparison with `NaN` is
false). -/
def jsHexGe (a b : String) : Bool :=
  match jsParseHex a, jsParseHex b with
  | some x, some y => decide (x ≥ y)
  | _, _ => false

/-! ## JS `toUpperCase` (ASCII fragment, sufficient for hex hashes) -/

/-- ASCII upper-casing of one character, as JS `toUpperCase` acts on
ASCII input: the letters `a`–`z` map to `A`–`Z`, everything else is
unchanged. -/
def upChar (c : Char) : Char :=
  match c with
  | 'a' => 'A' | 'b' => 'B' | 'c' => 'C' | 'd' => 'D' | 'e' => 'E'
  | 'f' => 'F' | 'g' => 'G' | 'h' => 'H' | 'i' => 'I' | 'j' => 'J'
  | 'k' => 'K' | 'l' => 'L' | 'm' => 'M' | 'n' => 'N' | 'o' => 'O'
  | 'p' => 'P' | 'q' => 'Q' | 'r' => 'R' | 's' => 'S' | 't' => 'T'
  | 'u' => 'U' | 'v' => 'V' | 'w' => 'W' | 'x' => 'X' | 'y' => 'Y'
  | 'z' => 'Z'
  | c => c

/-- ASCII upper-casing of a string (`link.toUpperCase()` in the code;
block hashes are hexadecimal, hence ASCII). -/
def upStr (s : String) : String :=
  ⟨s.data.map upChar⟩

end NanoWalletProof

namespace BaseControllerModel

/-!
Model of `src/BaseController.ts`.  A snapshot is a JS object, modelled as
a partial map from keys to values (`K → Option V`); a `Partial<S>` is the
same shape.  `Object.assign({}, s, p)` lets keys present in `p` shadow
`s`; `Object.assign({}, p)` copies `p` alone.
-/

/-- The snapshot produced by `update(state, overwrite)`:
`Object.assign({}, state)` when `overwrite`, else
`Object.assign({}, internalState, state)`. -/
def updateSnapshot {K V : Type} (internalState state : K → Option V)
    (overwrite : Bool) : K → Option V :=
  if overwrite then state
  else fun k => match state k with
    | some v => some v
    | none => internalState k

/-- Events of one `update` call, in chronological order. -/
inductive StoreEv (K V L : Type) where
  | commit (s : K → Option V)
  | notified (l : L) (s : K → Option V)
  | resolved

/-- One run of `BaseController.update`: the snapshot is committed to
`internalState` first, then `notify` calls every listener with the new
snapshot, and the call resolves after `Promise.all` of the listener
promises. -/
def updateRun {K V L : Type} (internalState state : K → Option V)
    (overwrite : Bool) (listeners : List L) :
    (K → Option V) × List (StoreEv K V L) :=
  let s' := updateSnapshot internalState state overwrite
  (s', StoreEv.commit s' ::
    (listeners.map fun l => StoreEv.notified l s') ++ [StoreEv.resolved])

end BaseControllerModel

namespace RpcModel

open NanoWalletProof

/-!
Model of `src/rpc/RpcController.ts`.  One attempt against one endpoint
has one of six outcomes; `postRPC` walks the endpoint list recursively
through `retry`, re-attempting only when `isRetryableError` holds and
endpoints remain.
-/

/-- Outcome of a single `fetchWithTimeout` + body-handling attempt. -/
inductive AttemptOutcome where
  | timeout
  | transportError (message : String)
  | badStatus
  | badJson
  | appError (message : String)
  | ok (body : String)
deriving Repr, DecidableEq

/-- The JS error value the attempt's `try` block throws, `none` on
success.  A timeout is the `AbortController`'s `DOMException` named
`AbortError`; a transport failure is the `TypeError` that `fetch`
rejects with; bad status / bad JSON / node-reported application errors
are plain `Error` objects created in `postRPC`. -/
def attemptError : AttemptOutcome → Option JsErr
  | .timeout => some ⟨true, "AbortError", "The operation was aborted."⟩
  | .transportError m => some { isDOM := false, name := "TypeError", message := m }
  | .badStatus => some (mkErr "bad status in response")
  | .badJson => some (mkErr "bad json in response")
  | .appError m => some (mkErr m)
  | .ok _ => none

/-- The `isRetryableError` predicate of `postRPC`, verbatim:
`error instanceof DOMException && (error.name === 'AbortError' ||
error.message === 'bad status in response' ||
error.message === 'bad json in response')`. -/
def isRetryableError (e : JsErr) : Bool :=
  e.isDOM && (e.name == "AbortError"
    || e.message == "bad status in response"
    || e.message == "bad json in response")

/-- What one attempt produces inside the `try` block: a successful body
or the thrown error. -/
def attemptResult (o : AttemptOutcome) : Except JsErr String :=
  match o, attemptError o with
  | .ok body, _ => .ok body
  | _, some e => .error e
  | _, none => .ok ""

/-- `postRPC` over the per-endpoint outcomes (the list element at index
`retry` is the outcome of the attempt against `urls[retry]`; recursion
on `retry + 1` is modelled structurally on the remaining suffix, and the
code's `retry < urls.length - 1` is `rest` being non-empty).  Returns
the result together with the number of attempts made. -/
def postRPC : List AttemptOutcome → Except JsErr String × Nat
  | [] => (.error (mkErr "no endpoint"), 0)
  | o :: rest =>
    match attemptResult o with
    | .ok body => (.ok body, 1)
    | .error e =>
      if isRetryableError e && !rest.isEmpty then
        let (res, n) := postRPC rest
        (res, n + 1)
      else (.error e, 1)

/-- The `NanoRPC` constructor: an endpoint list is rejected only when its
`length < 0` (never, for a JS array), and each address is validated by
the host `URL` parser (`isURL`, an external primitive). -/
def mkNanoRPC (isURL : String → Bool) (rpcUrls workerUrls : List String) :
    Except JsErr (List String × List String) :=
  if rpcUrls.length < 0 then .error (mkErr "No RPC addresses provided")
  else match rpcUrls.find? (fun a => ¬ isURL a) with
  | some a => .error (mkErr ("Invalid RPC address: " ++ a))
  | none =>
    if workerUrls.length < 0 then .error (mkErr "No workers addresses provided")
    else match workerUrls.find? (fun a => ¬ isURL a) with
    | some a => .error (mkErr ("Invalid workers address: " ++ a))
    | none => .ok (rpcUrls, workerUrls)

end RpcModel

namespace WalletModel

open NanoWalletProof

/-!
Model of `src/wallet/WalletController.ts`.  Each operation is a pure
function of the wallet configuration, an environment of external
collaborators (`WalletEnv`: the cryptographic primitives and the RPC
replies for this call) and the current state; it returns the result, the
final state, and the chronological list of observable events (block
construction, work acquisition/network work request, block submission,
store updates).
-/

/-- An entry of `state.receivableBlocks`. -/
structure ReceivableBlock where
  blockHash : String
  amount : String
deriving Repr, DecidableEq

/-- The cached work entry `state.work`. -/
structure WorkCache where
  hash : String
  threshold : String
  work : String
deriving Repr, DecidableEq

/-- `NanoWalletState`. -/
structure NanoWalletState where
  balance : String
  receivable : String
  receivableBlocks : List ReceivableBlock
  frontier : Option String
  representative : Option String
  work : Option WorkCache
deriving Repr, DecidableEq

/-- A partial state as passed to `this.update(...)`: present fields
overwrite, absent fields are preserved (shallow merge). -/
structure Patch where
  balance : Option String := none
  receivable : Option String := none
  receivableBlocks : Option (List ReceivableBlock) := none
  frontier : Option (Option String) := none
  representative : Option (Option String) := none
  work : Option (Option WorkCache) := none
deriving Repr, DecidableEq

/-- Shallow merge of a partial state into the snapshot
(`Object.assign({}, this.internalState, state)`). -/
def applyPatch (s : NanoWalletState) (p : Patch) : NanoWalletState where
  balance := p.balance.getD s.balance
  receivable := p.receivable.getD s.receivable
  receivableBlocks := p.receivableBlocks.getD s.receivableBlocks
  frontier := p.frontier.getD s.frontier
  representative := p.representative.getD s.representative
  work := p.work.getD s.work

/-- Observable events of one wallet operation, in order.
`workAcquisition` records the `(hash, threshold)` pair handed to
`getWork`; `workRequest` is the actual `work_generate` network call;
`update` is one `this.update(...)` store mutation. -/
inductive Ev where
  | blockConstruction
  | workAcquisition (hash threshold : String)
  | workRequest (hash threshold : String)
  | processSubmission
  | update (p : Patch)
deriving Repr, DecidableEq

/-- The configuration fields the operations read.  `publicKey` is
derived once at construction by the external `derivePublicKey`. -/
structure WalletConfig where
  privateKey : String
  representative : String
  publicKey : String
deriving Repr, DecidableEq

/-- Arguments handed to the external `createBlock` primitive. -/
structure BlockArgs where
  previous : Option String
  representative : String
  balance : String
  link : Option String
deriving Repr, DecidableEq

/-- The fields of an `account_info` reply that `sync` destructures. -/
structure AccountInfoR where
  balance : String
  frontier : String
  receivable : String
  representative : String
deriving Repr, DecidableEq

/-- External collaborators for one operation: the deterministic
canonical block hash (`hashOf`, from the `createBlock` primitive), and
the RPC replies this call would observe (`workGenerate` yielding the
optional `work` field, `validateWork`, `process` mapping the submitted
candidate hash and work to the node-reported hash, `accountInfo`,
`receivableR` as the ordered `blocks` mapping). -/
structure WalletEnv where
  hashOf : BlockArgs → String
  workGenerate : String → String → Except JsErr (Option String)
  validateWork : String → String → String → Bool
  process : String → String → Except JsErr String
  accountInfo : Except JsErr AccountInfoR
  receivableR : Except JsErr (List (String × String))

/-- Result of one wallet operation: the fulfilled/rejected promise, the
final state, the event trace, and the `this.configure` representative
change when one happened. -/
structure OpResult where
  res : Except JsErr String
  state : NanoWalletState
  events : List Ev
  configRepresentative : Option String := none
deriving Repr

/-- Modelled from the spec: the operation difficulty constants live in
`src/Constants.ts`, which is not among the sources; the spec fixes only
that receive's threshold is lower than send/sweep/change's.  The values
are the live Nano network defaults, which satisfy that ordering. -/
def RECEIVE_DIFFICULTY : String := "fffffe0000000000"

/-- Modelled from the spec: see `RECEIVE_DIFFICULTY`. -/
def SEND_DIFFICULTY : String := "fffffff800000000"

/-- Modelled from the spec: validation performed by the external
`createBlock` primitive (`nanocurrency.js`) on its `balance` argument —
a raw amount must be a non-empty decimal-digit string whose value fits
the 128-bit raw range; a negative (`-`-prefixed) string is rejected. -/
def checkBalance (s : String) : Bool :=
  !s.data.isEmpty && allDigits s && decide (natOfDigits s.data ≤ 2 ^ 128 - 1)

/-- The external `createBlock` primitive: validates the balance and
returns the canonical hash of the constructed block. -/
def createBlock (env : WalletEnv) (args : BlockArgs) : Except JsErr String :=
  if checkBalance args.balance then .ok (env.hashOf args)
  else .error (mkErr "Balance is not valid")

/-- The network path of `getWork`, i.e. the private `workGenerate`
method plus the cache write-back: request generation, fail on an absent
(`undefined` or empty, both falsy) work token, validate, and only on
success overwrite `state.work` with the requested pair and solution. -/
def getWorkNet (env : WalletEnv) (s : NanoWalletState) (hash threshold : String) :
    Except JsErr String × NanoWalletState × List Ev :=
  match env.workGenerate hash threshold with
  | .error e => (.error e, s, [Ev.workRequest hash threshold])
  | .ok none => (.error (mkErr "No work"), s, [Ev.workRequest hash threshold])
  | .ok (some w) =>
    if w = "" then (.error (mkErr "No work"), s, [Ev.workRequest hash threshold])
    else if env.validateWork w hash threshold then
      let p : Patch := { work := some (some ⟨hash, threshold, w⟩) }
      (.ok w, applyPatch s p, [Ev.workRequest hash threshold, Ev.update p])
    else (.error (mkErr "Invalid work"), s, [Ev.workRequest hash threshold])

/-- `getWork(hash, threshold)`: reuse the cached work when
`state.work?.hash === hash` and
`parseInt(state.work.threshold, 16) >= parseInt(threshold, 16)`,
otherwise generate over the network. -/
def getWork (env : WalletEnv) (s : NanoWalletState) (hash threshold : String) :
    Except JsErr String × NanoWalletState × List Ev :=
  let (res, s', evs) :=
    match s.work with
    | some w =>
      if w.hash = hash ∧ jsHexGe w.threshold threshold then
        (.ok w.work, s, ([] : List Ev))
      else getWorkNet env s hash threshold
    | none => getWorkNet env s hash threshold
  (res, s', Ev.workAcquisition hash threshold :: evs)

/-- The common tail of the four chain-mutating operations, after the
candidate block and its hash exist: acquire work for `(wtHash, wtThr)`,
submit the block via `process`, compare the reported hash with the
candidate `hash`, and only on a match commit the operation's single
store update `mkP s1` (built over the state as of commit time) and the
optional `this.configure` representative change. -/
def finishOp (env : WalletEnv) (s : NanoWalletState) (hash wtHash wtThr : String)
    (mkP : NanoWalletState → Patch) (rep : Option String) : OpResult :=
  match getWork env s wtHash wtThr with
  | (.error e, s1, evs) => ⟨.error e, s1, Ev.blockConstruction :: evs, none⟩
  | (.ok w, s1, evs) =>
    match env.process hash w with
    | .error e =>
      ⟨.error e, s1, Ev.blockConstruction :: evs ++ [Ev.processSubmission], none⟩
    | .ok reported =>
      if reported = hash then
        ⟨.ok hash, applyPatch s1 (mkP s1),
          Ev.blockConstruction :: evs ++ [Ev.processSubmission, Ev.update (mkP s1)], rep⟩
      else
        ⟨.error (mkErr "Block hash mismatch"), s1,
          Ev.blockConstruction :: evs ++ [Ev.processSubmission], none⟩

/-- The patch `receive` commits on success: new balance, frontier = the
new block's hash, the matched receivable removed, the total reduced. -/
def receivePatch (s1 : NanoWalletState) (balance amount hash link : String) : Patch :=
  { balance := some balance,
    receivable := some (bigMinus s1.receivable amount),
    receivableBlocks :=
      some (s1.receivableBlocks.filter fun bb => decide (bb.blockHash ≠ link)),
    frontier := some (some hash) }

/-- `receive(link)`: the argument is upper-cased first; the matched
block's amount must be truthy; work is acquired for the current frontier
(the wallet's public key when opening) at the receive difficulty. -/
def receive (cfg : WalletConfig) (env : WalletEnv) (s : NanoWalletState)
    (link : String) : OpResult :=
  match s.receivableBlocks.find? fun b => decide (b.blockHash = upStr link) with
  | none => ⟨.error (mkErr "No receivable block"), s, [], none⟩
  | some b =>
    if b.amount = "" then ⟨.error (mkErr "No receivable block"), s, [], none⟩
    else
      match createBlock env ⟨s.frontier, cfg.representative,
          bigPlus s.balance b.amount, some (upStr link)⟩ with
      | .error e => ⟨.error e, s, [Ev.blockConstruction], none⟩
      | .ok hash =>
        finishOp env s hash (s.frontier.getD cfg.publicKey) RECEIVE_DIFFICULTY
          (fun s1 => receivePatch s1 (bigPlus s.balance b.amount) b.amount hash
            (upStr link)) none

/-- `send(to, amount)`. -/
def send (cfg : WalletConfig) (env : WalletEnv) (s : NanoWalletState)
    (dest amount : String) : OpResult :=
  match s.frontier with
  | none => ⟨.error (mkErr "No frontier"), s, [], none⟩
  | some prev =>
    match createBlock env ⟨some prev, cfg.representative,
        bigMinus s.balance amount, some dest⟩ with
    | .error e => ⟨.error e, s, [Ev.blockConstruction], none⟩
    | .ok hash =>
      finishOp env s hash prev SEND_DIFFICULTY
        (fun _ => { balance := some (bigMinus s.balance amount), frontier := some (some hash) }) none

/-- `sweep(to)`. -/
def sweep (cfg : WalletConfig) (env : WalletEnv) (s : NanoWalletState)
    (dest : String) : OpResult :=
  match s.frontier with
  | none => ⟨.error (mkErr "No frontier"), s, [], none⟩
  | some prev =>
    match createBlock env ⟨some prev, cfg.representative, "0", some dest⟩ with
    | .error e => ⟨.error e, s, [Ev.blockConstruction], none⟩
    | .ok hash =>
      finishOp env s hash prev SEND_DIFFICULTY
        (fun _ => { balance := some "0", frontier := some (some hash) }) none

/-- `account || this.config.representative`: `undefined` and the empty
string (both falsy) fall back to the configured default. -/
def repArg (account : Option String) (cfg : WalletConfig) : String :=
  match account with
  | some a => if a = "" then cfg.representative else a
  | none => cfg.representative

/-- `setRepresentative(account?)` — note the committed patch writes
`balance: '0'` verbatim from the source. -/
def setRepresentative (cfg : WalletConfig) (env : WalletEnv)
    (s : NanoWalletState) (account : Option String) : OpResult :=
  match s.frontier with
  | none => ⟨.error (mkErr "No frontier"), s, [], none⟩
  | some prev =>
    match createBlock env ⟨some prev, repArg account cfg, s.balance, none⟩ with
    | .error e => ⟨.error e, s, [Ev.blockConstruction], none⟩
    | .ok hash =>
      finishOp env s hash prev SEND_DIFFICULTY
        (fun _ => { balance := some "0", frontier := some (some hash), representative := some (some (repArg account cfg)) })
        (some (repArg account cfg))

/-- `getReceivable()`: fetch the receivable mapping, rebuild the block
list and the exact total, and commit both. -/
def getReceivable (env : WalletEnv) (s : NanoWalletState) :
    Except JsErr (List ReceivableBlock × String) × NanoWalletState :=
  match env.receivableR with
  | .error e => (.error e, s)
  | .ok blocks =>
    (.ok (blocks.map fun pr => (⟨pr.1, pr.2⟩ : ReceivableBlock),
        blocks.foldl (fun acc pr => bigPlus acc pr.2) "0"),
      applyPatch s { receivable := some (blocks.foldl (fun acc pr => bigPlus acc pr.2) "0"), receivableBlocks := some (blocks.map fun pr => ⟨pr.1, pr.2⟩) })

/-- `sync()`: commit the `account_info` fields, then `getReceivable`;
the surrounding `catch` swallows exactly the errors whose message is
`'Account not found'` and rethrows every other one. -/
def sync (env : WalletEnv) (s : NanoWalletState) :
    Except JsErr Unit × NanoWalletState :=
  match env.accountInfo with
  | .ok info =>
    match getReceivable env (applyPatch s { balance := some info.balance, receivable := some info.receivable, frontier := some (some info.frontier), representative := some (some info.representative) }) with
    | (.ok _, s2) => (.ok (), s2)
    | (.error e, s2) =>
      if e.message = "Account not found" then (.ok (), s2) else (.error e, s2)
  | .error e =>
    if e.message = "Account not found" then (.ok (), s) else (.error e, s)

/-- The five state fields named by the integrity claim: balance,
receivable total, receivable list, frontier, representative (the cached
work is excluded; the work provider may legitimately write it). -/
def proj5 (s : NanoWalletState) :
    String × String × List ReceivableBlock × Option String × Option String :=
  (s.balance, s.receivable, s.receivableBlocks, s.frontier, s.representative)

/-- Does a patch touch any of the five claim fields? -/
def touches5 (p : Patch) : Bool :=
  p.balance.isSome || p.receivable.isSome || p.receivableBlocks.isSome
    || p.frontier.isSome || p.representative.isSome

/-- Is the event a store update touching the five claim fields? -/
def isUpdate5 : Ev → Bool
  | .update p => touches5 p
  | _ => false

/-- Number of store updates touching the five claim fields. -/
def countUpdate5 (evs : List Ev) : Nat := (evs.filter isUpdate5).length

/-- An environment whose `process` action always replies with a
well-formed hash that differs from the submitted candidate's (a
faulty/compromised endpoint substituting a different block). -/
def mismatchEnv (env : WalletEnv) : Prop :=
  ∀ q w, ∃ r, env.process q w = .ok r ∧ r ≠ q

/-- The mismatch side of the integrity claim for one operation run,
relative to the starting state: the five fields end unchanged, no store
update touched them, and if the run reached submission it failed with
the integrity error. -/
def opMismatchOK (r : OpResult) (s0 : NanoWalletState) : Prop :=
  proj5 r.state = proj5 s0 ∧ countUpdate5 r.events = 0 ∧
    (Ev.processSubmission ∈ r.events → r.res = .error (mkErr "Block hash mismatch"))

/-- The success side of the integrity claim for one operation run:
a fulfilled run performed exactly one store update on the five fields,
that update is the final event, and submission happened before it. -/
def opSuccessOK (r : OpResult) : Prop :=
  ∀ h, r.res = .ok h → countUpdate5 r.events = 1 ∧
    (∃ p, r.events.getLast? = some (Ev.update p) ∧ touches5 p = true) ∧
    Ev.processSubmission ∈ r.events.dropLast

/-- The hashes of the work-acquisition targets in a trace. -/
def workTargets (evs : List Ev) : List (String × String) :=
  evs.filterMap fun e =>
    match e with
    | .workAcquisition h t => some (h, t)
    | _ => none

/-- The `work_generate` network calls in a trace. -/
def workNetCalls (evs : List Ev) : List (String × String) :=
  evs.filterMap fun e =>
    match e with
    | .workRequest h t => some (h, t)
    | _ => none

end WalletModel

namespace WalletModel

open NanoWalletProof

theorem getWorkNet_spec (env : WalletEnv) (s : NanoWalletState) (h t : String) :
    proj5 (getWorkNet env s h t).2.1 = proj5 s ∧
    countUpdate5 (getWorkNet env s h t).2.2 = 0 ∧
    Ev.processSubmission ∉ (getWorkNet env s h t).2.2 ∧
    workTargets (getWorkNet env s h t).2.2 = [] ∧
    workNetCalls (getWorkNet env s h t).2.2 = [(h, t)] := by
  unfold getWorkNet
  rcases env.workGenerate h t with e | w
  · simp [countUpdate5, workTargets, workNetCalls, isUpdate5]
  · rcases w with _ | w
    · simp [countUpdate5, workTargets, workNetCalls, isUpdate5]
    · by_cases hw : w = "" <;>
        by_cases hv : env.validateWork w h t <;>
          simp [hw, hv, countUpdate5, workTargets, workNetCalls, isUpdate5,
            touches5, proj5, applyPatch]

theorem getWork_spec (env : WalletEnv) (s : NanoWalletState) (h t : String) :
    proj5 (getWork env s h t).2.1 = proj5 s ∧
    countUpdate5 (getWork env s h t).2.2 = 0 ∧
    Ev.processSubmission ∉ (getWork env s h t).2.2 ∧
    workTargets (getWork env s h t).2.2 = [(h, t)] := by
  have hn := getWorkNet_spec env s h t
  unfold getWork
  rcases hw : s.work with _ | w
  · simp [countUpdate5, workTargets, List.filter_cons, isUpdate5,
      workNetCalls] at hn ⊢
    exact ⟨hn.1, hn.2.1, hn.2.2.1, hn.2.2.2.1⟩
  · by_cases hc : w.hash = h ∧ jsHexGe w.threshold t
    · simp [hc, countUpdate5, workTargets, isUpdate5]
    · simp [hc, countUpdate5, workTargets, isUpdate5] at hn ⊢
      exact ⟨hn.1, hn.2.1, hn.2.2.1, hn.2.2.2.1⟩

theorem finishOp_mismatchOK (env : WalletEnv) (s : NanoWalletState)
    (hash wtHash wtThr : String) (mkP : NanoWalletState → Patch)
    (rep : Option String) (H : mismatchEnv env) :
    opMismatchOK (finishOp env s hash wtHash wtThr mkP rep) s := by
  unfold opMismatchOK finishOp
  rcases hgw : getWork env s wtHash wtThr with ⟨res, s1, evs⟩
  have hsp := getWork_spec env s wtHash wtThr
  rw [hgw] at hsp
  obtain ⟨h1, h2, h3, _⟩ := hsp
  cases res with
  | error e =>
    refine ⟨h1, ?_, ?_⟩
    · simpa [countUpdate5, List.filter_cons, isUpdate5] using h2
    · intro hmem
      exact absurd (by simpa using hmem) h3
  | ok w =>
    dsimp only
    obtain ⟨r, hr, hne⟩ := H hash w
    rw [hr]
    dsimp only
    rw [if_neg hne]
    refine ⟨h1, ?_, fun _ => rfl⟩
    simpa [countUpdate5, List.filter_append, List.filter_cons, isUpdate5] using h2

theorem finishOp_successOK (env : WalletEnv) (s : NanoWalletState)
    (hash wtHash wtThr : String) (mkP : NanoWalletState → Patch)
    (rep : Option String) (hp : ∀ s1, touches5 (mkP s1) = true) :
    opSuccessOK (finishOp env s hash wtHash wtThr mkP rep) := by
  unfold opSuccessOK finishOp
  rcases hgw : getWork env s wtHash wtThr with ⟨res, s1, evs⟩
  have hsp := getWork_spec env s wtHash wtThr
  rw [hgw] at hsp
  obtain ⟨h1, h2, h3, _⟩ := hsp
  cases res with
  | error e => intro h hres; simp at hres
  | ok w =>
    dsimp only
    cases hpr : env.process hash w with
    | error e => intro h hres; simp at hres
    | ok reported =>
      dsimp only
      by_cases hre : reported = hash
      · rw [if_pos hre]
        intro h hres
        have hevsnil : evs.filter isUpdate5 = [] := by
          have h2c := h2
          unfold countUpdate5 at h2c
          exact List.length_eq_zero.mp h2c
        have hshape : Ev.blockConstruction :: evs ++
            [Ev.processSubmission, Ev.update (mkP s1)] =
            (Ev.blockConstruction :: (evs ++ [Ev.processSubmission])) ++
              [Ev.update (mkP s1)] := by simp
        refine ⟨?_, ⟨mkP s1, ?_, hp s1⟩, ?_⟩
        · simp [countUpdate5, List.filter_append, List.filter_cons,
            isUpdate5, hevsnil, hp s1]
        · simp only [hshape, List.getLast?_concat]
        · simp only [hshape, List.dropLast_concat]
          simp
      · rw [if_neg hre]
        intro h hres
        simp at hres

theorem receive_mismatchOK (cfg : WalletConfig) (env : WalletEnv)
    (s : NanoWalletState) (link : String) (H : mismatchEnv env) :
    opMismatchOK (receive cfg env s link) s := by
  unfold receive
  cases hf : s.receivableBlocks.find? fun b => decide (b.blockHash = upStr link) with
  | none => simp [hf, opMismatchOK, countUpdate5, isUpdate5]
  | some b =>
    simp only [hf]
    by_cases hb : b.amount = ""
    · simp [hb, opMismatchOK, countUpdate5, isUpdate5]
    · rw [if_neg hb]
      cases hcb : createBlock env ⟨s.frontier, cfg.representative,
          bigPlus s.balance b.amount, some (upStr link)⟩ with
      | error e => simp [opMismatchOK, countUpdate5, isUpdate5]
      | ok hash => exact finishOp_mismatchOK env s hash _ _ _ _ H

theorem receive_successOK (cfg : WalletConfig) (env : WalletEnv)
    (s : NanoWalletState) (link : String) :
    opSuccessOK (receive cfg env s link) := by
  unfold receive
  cases hf : s.receivableBlocks.find? fun b => decide (b.blockHash = upStr link) with
  | none => intro h hres; simp at hres
  | some b =>
    simp only [hf]
    by_cases hb : b.amount = ""
    · simp only [hb, if_true]
      intro h hres; simp at hres
    · rw [if_neg hb]
      cases hcb : createBlock env ⟨s.frontier, cfg.representative,
          bigPlus s.balance b.amount, some (upStr link)⟩ with
      | error e => intro h hres; simp at hres
      | ok hash =>
        refine finishOp_successOK env s hash _ _ _ _ ?_
        intro s1
        simp [receivePatch, touches5]

end WalletModel

namespace WalletModel

open NanoWalletProof

theorem send_mismatchOK (cfg : WalletConfig) (env : WalletEnv)
    (s : NanoWalletState) (dest amount : String) (H : mismatchEnv env) :
    opMismatchOK (send cfg env s dest amount) s := by
  unfold send
  cases hfr : s.frontier with
  | none => simp [opMismatchOK, countUpdate5, isUpdate5]
  | some prev =>
    dsimp only
    cases hcb : createBlock env ⟨some prev, cfg.representative, bigMinus s.balance amount, some dest⟩ with
    | error e => simp [opMismatchOK, countUpdate5, isUpdate5]
    | ok hash => exact finishOp_mismatchOK env s _ _ _ _ _ H

theorem send_successOK (cfg : WalletConfig) (env : WalletEnv)
    (s : NanoWalletState) (dest amount : String) :
    opSuccessOK (send cfg env s dest amount) := by
  unfold send
  cases hfr : s.frontier with
  | none => intro h hres; simp at hres
  | some prev =>
    dsimp only
    cases hcb : createBlock env ⟨some prev, cfg.representative, bigMinus s.balance amount, some dest⟩ with
    | error e => intro h hres; simp at hres
    | ok hash =>
      refine finishOp_successOK env s _ _ _ _ _ ?_
      intro s1
      simp [touches5]

theorem sweep_mismatchOK (cfg : WalletConfig) (env : WalletEnv)
    (s : NanoWalletState) (dest : String) (H : mismatchEnv env) :
    opMismatchOK (sweep cfg env s dest) s := by
  unfold sweep
  cases hfr : s.frontier with
  | none => simp [opMismatchOK, countUpdate5, isUpdate5]
  | some prev =>
    dsimp only
    cases hcb : createBlock env ⟨some prev, cfg.representative, "0", some dest⟩ with
    | error e => simp [opMismatchOK, countUpdate5, isUpdate5]
    | ok hash => exact finishOp_mismatchOK env s _ _ _ _ _ H

theorem sweep_successOK (cfg : WalletConfig) (env : WalletEnv)
    (s : NanoWalletState) (dest : String) :
    opSuccessOK (sweep cfg env s dest) := by
  unfold sweep
  cases hfr : s.frontier with
  | none => intro h hres; simp at hres
  | some prev =>
    dsimp only
    cases hcb : createBlock env ⟨some prev, cfg.representative, "0", some dest⟩ with
    | error e => intro h hres; simp at hres
    | ok hash =>
      refine finishOp_successOK env s _ _ _ _ _ ?_
      intro s1
      simp [touches5]

theorem setRepresentative_mismatchOK (cfg : WalletConfig) (env : WalletEnv)
    (s : NanoWalletState) (acc : Option String) (H : mismatchEnv env) :
    opMismatchOK (setRepresentative cfg env s acc) s := by
  unfold setRepresentative
  cases hfr : s.frontier with
  | none => simp [opMismatchOK, countUpdate5, isUpdate5]
  | some prev =>
    dsimp only
    cases hcb : createBlock env ⟨some prev, repArg acc cfg, s.balance, none⟩ with
    | error e => simp [opMismatchOK, countUpdate5, isUpdate5]
    | ok hash => exact finishOp_mismatchOK env s _ _ _ _ _ H

theorem setRepresentative_successOK (cfg : WalletConfig) (env : WalletEnv)
    (s : NanoWalletState) (acc : Option String) :
    opSuccessOK (setRepresentative cfg env s acc) := by
  unfold setRepresentative
  cases hfr : s.frontier with
  | none => intro h hres; simp at hres
  | some prev =>
    dsimp only
    cases hcb : createBlock env ⟨some prev, repArg acc cfg, s.balance, none⟩ with
    | error e => intro h hres; simp at hres
    | ok hash =>
      refine finishOp_successOK env s _ _ _ _ _ ?_
      intro s1
      simp [touches5]

/-- C1: for every chain-mutating operation (receive, send, sweep,
setRepresentative), when the `process` RPC reports a hash differing from
the locally computed candidate hash, the operation fails with the
integrity error `'Block hash mismatch'` and the five claim fields
(balance, receivable, receivableBlocks, frontier, representative) are
exactly what they were before the call, with no store update touching
them; and every fulfilled run performs exactly one store update on those
fields, as its final step, after the submission whose reported hash
matched. -/
theorem chain_ops_integrity (cfg : WalletConfig) (env : WalletEnv)
    (s : NanoWalletState) (link dest amount : String) (acc : Option String) :
    (mismatchEnv env →
      opMismatchOK (receive cfg env s link) s ∧
      opMismatchOK (send cfg env s dest amount) s ∧
      opMismatchOK (sweep cfg env s dest) s ∧
      opMismatchOK (setRepresentative cfg env s acc) s) ∧
    (opSuccessOK (receive cfg env s link) ∧
      opSuccessOK (send cfg env s dest amount) ∧
      opSuccessOK (sweep cfg env s dest) ∧
      opSuccessOK (setRepresentative cfg env s acc)) :=
  ⟨fun H => ⟨receive_mismatchOK cfg env s link H, send_mismatchOK cfg env s dest amount H,
      sweep_mismatchOK cfg env s dest H, setRepresentative_mismatchOK cfg env s acc H⟩,
    receive_successOK cfg env s link, send_successOK cfg env s dest amount,
    sweep_successOK cfg env s dest, setRepresentative_successOK cfg env s acc⟩

/-- Witness for C1: a concrete substituting endpoint leaves the five
fields untouched, and a concrete honest endpoint's send performs exactly
one store update. -/
theorem chain_ops_integrity_witness :
    proj5 (send ⟨"priv", "repA", "PK"⟩
        ⟨fun _ => "HH", fun _ _ => .ok (some "W"), fun _ _ _ => true,
          fun q _ => .ok ("X" ++ q), .error (mkErr "x"), .ok []⟩
        ⟨"5", "1", [⟨"BB", "1"⟩], some "AA", some "repA", none⟩ "D" "1").state =
      proj5 ⟨"5", "1", [⟨"BB", "1"⟩], some "AA", some "repA", none⟩ ∧
    countUpdate5 (send ⟨"priv", "repA", "PK"⟩
        ⟨fun _ => "HH", fun _ _ => .ok (some "W"), fun _ _ _ => true,
          fun q _ => .ok q, .error (mkErr "x"), .ok []⟩
        ⟨"5", "1", [⟨"BB", "1"⟩], some "AA", some "repA", none⟩ "D" "1").events = 1 := by
  constructor
  · have h := chain_ops_integrity ⟨"priv", "repA", "PK"⟩
        ⟨fun _ => "HH", fun _ _ => .ok (some "W"), fun _ _ _ => true,
          fun q _ => .ok ("X" ++ q), .error (mkErr "x"), .ok []⟩
        ⟨"5", "1", [⟨"BB", "1"⟩], some "AA", some "repA", none⟩ "BB" "D" "1" none
    refine (h.1 ?_).2.1.1
    intro q w
    refine ⟨"X" ++ q, rfl, fun hq => ?_⟩
    have hlen := congrArg String.length hq
    rw [String.length_append] at hlen
    have hone : "X".length = 1 := rfl
    rw [hone] at hlen
    omega
  · have h := chain_ops_integrity ⟨"priv", "repA", "PK"⟩
        ⟨fun _ => "HH", fun _ _ => .ok (some "W"), fun _ _ _ => true,
          fun q _ => .ok q, .error (mkErr "x"), .ok []⟩
        ⟨"5", "1", [⟨"BB", "1"⟩], some "AA", some "repA", none⟩ "BB" "D" "1" none
    exact (h.2.2.1 "HH" (by rfl)).1

end WalletModel

namespace RpcModel

open NanoWalletProof

/-- C2 (code evaluated at the failing input): a non-success HTTP
status, a malformed body, or a transport failure is NOT retried — the
error values thrown for them are plain `Error`s, never `DOMException`s,
so `isRetryableError` is false and `postRPC` rethrows after a single
attempt even though a second, healthy endpoint remains — while a timeout
(a `DOMException` named `AbortError`) is retried and returns the second
endpoint's result after two attempts. -/
theorem postRPC_transient_not_retried :
    postRPC [AttemptOutcome.badStatus, AttemptOutcome.ok "r"] =
      (.error (mkErr "bad status in response"), 1) ∧
    postRPC [AttemptOutcome.badJson, AttemptOutcome.ok "r"] =
      (.error (mkErr "bad json in response"), 1) ∧
    postRPC [AttemptOutcome.transportError "fetch failed", AttemptOutcome.ok "r"] =
      (.error ⟨false, "TypeError", "fetch failed"⟩, 1) ∧
    postRPC [AttemptOutcome.timeout, AttemptOutcome.ok "r"] = (.ok "r", 2) :=
  ⟨rfl, rfl, rfl, rfl⟩

/-- C8 (code evaluated at the failing input): constructing the RPC
client with empty endpoint lists succeeds — the guard `length < 0` can
never fire for a JS array — although the unreachable error message `'No
RPC addresses provided'` shows the intent; an address the URL parser
rejects is, as claimed, a construction error. -/
theorem mkNanoRPC_empty_accepted :
    mkNanoRPC (fun _ => true) [] [] = .ok ([], []) ∧
    mkNanoRPC (fun _ => false) ["notaurl"] [] =
      .error (mkErr "Invalid RPC address: notaurl") :=
  ⟨rfl, rfl⟩

end RpcModel

namespace BaseControllerModel

/-- C9: `update(partial, overwrite := false)` shallow-merges — keys
absent from the partial keep their current value, present keys take the
partial's value — `overwrite := true` replaces the snapshot wholesale;
in both modes the trace commits the new snapshot first, notifies each
listener with that committed snapshot, and resolves last, after every
listener notification. -/
theorem update_merge_commit_notify {K V L : Type} (s p : K → Option V)
    (listeners : List L) (ow : Bool) :
    (∀ k, p k = none → (updateRun s p false listeners).1 k = s k) ∧
    (∀ k v, p k = some v → (updateRun s p false listeners).1 k = some v) ∧
    ((updateRun s p true listeners).1 = p) ∧
    ((updateRun s p ow listeners).2.head? =
      some (StoreEv.commit (updateRun s p ow listeners).1)) ∧
    ((updateRun s p ow listeners).2.getLast? = some StoreEv.resolved) ∧
    (∀ l ∈ listeners,
      StoreEv.notified l (updateRun s p ow listeners).1 ∈
        (updateRun s p ow listeners).2) := by
  refine ⟨?_, ?_, ?_, ?_, ?_, ?_⟩
  · intro k hk; simp [updateRun, updateSnapshot, hk]
  · intro k v hk; simp [updateRun, updateSnapshot, hk]
  · simp [updateRun, updateSnapshot]
  · simp [updateRun]
  · show (StoreEv.commit _ :: (_ ++ [StoreEv.resolved])).getLast? = _
    rw [← List.cons_append]
    exact List.getLast?_concat _
  · intro l hl
    unfold updateRun
    exact List.mem_cons_of_mem _ (List.mem_append_left _
      (List.mem_map_of_mem _ hl))

/-- Witness for C9 at concrete snapshots and one listener. -/
theorem update_merge_commit_notify_witness :
    ((updateRun (fun k => if k = 0 then some 10 else if k = 1 then some 20 else none)
        (fun k => if k = 1 then some 30 else none) false [7]).1 0 = some 10) ∧
    ((updateRun (fun k => if k = 0 then some 10 else if k = 1 then some 20 else none)
        (fun k => if k = 1 then some 30 else none) false [7]).1 1 = some 30) ∧
    ((updateRun (fun k => if k = 0 then some 10 else if k = 1 then some 20 else none)
        (fun k => if k = 1 then some 30 else none) true [7]).1 =
      fun k => if k = 1 then some 30 else none) ∧
    ((updateRun (fun k => if k = 0 then some 10 else if k = 1 then some 20 else none)
        (fun k => if k = 1 then some 30 else none) false [7]).2.getLast? =
      some StoreEv.resolved) ∧
    (StoreEv.notified 7 (updateRun
        (fun k => if k = 0 then some 10 else if k = 1 then some 20 else none)
        (fun k => if k = 1 then some 30 else none) false [7]).1 ∈
      (updateRun (fun k => if k = 0 then some 10 else if k = 1 then some 20 else none)
        (fun k => if k = 1 then some 30 else none) false [7]).2) := by
  have h := update_merge_commit_notify
    (fun k => if k = 0 then some 10 else if k = 1 then some 20 else none)
    (fun k => if k = 1 then some 30 else none) [7] false
  refine ⟨?_, ?_, ?_, ?_, ?_⟩
  · exact h.1 0 rfl
  · exact h.2.1 1 30 rfl
  · exact h.2.2.1
  · exact h.2.2.2.2.1
  · exact h.2.2.2.2.2 7 (by simp)

end BaseControllerModel

namespace WalletModel

open NanoWalletProof

/-- C4 (code evaluated at the failing input): a successful
`setRepresentative` commits `balance: '0'`: starting from stored balance
`"5"`, the canonical hash of the committed block still carries balance
`"5"` (the env hashes a block to its balance followed by `"H"`, and the
new frontier is that hash), yet the stored balance after the call is
`"0"`, not the claimed unchanged `"5"`. -/
theorem setRepresentative_zeroes_stored_balance :
    (setRepresentative ⟨"priv", "repA", "PK"⟩
        ⟨fun a => a.balance ++ "H", fun _ _ => .ok (some "W"), fun _ _ _ => true,
          fun q _ => .ok q, .error (mkErr "x"), .ok []⟩
        ⟨"5", "0", [], some "AA", some "repA", none⟩ (some "repNew")).res =
      .ok "5H" ∧
    (setRepresentative ⟨"priv", "repA", "PK"⟩
        ⟨fun a => a.balance ++ "H", fun _ _ => .ok (some "W"), fun _ _ _ => true,
          fun q _ => .ok q, .error (mkErr "x"), .ok []⟩
        ⟨"5", "0", [], some "AA", some "repA", none⟩ (some "repNew")).state.balance =
      "0" ∧
    (setRepresentative ⟨"priv", "repA", "PK"⟩
        ⟨fun a => a.balance ++ "H", fun _ _ => .ok (some "W"), fun _ _ _ => true,
          fun q _ => .ok q, .error (mkErr "x"), .ok []⟩
        ⟨"5", "0", [], some "AA", some "repA", none⟩ (some "repNew")).state.frontier =
      some "5H" ∧
    (setRepresentative ⟨"priv", "repA", "PK"⟩
        ⟨fun a => a.balance ++ "H", fun _ _ => .ok (some "W"), fun _ _ _ => true,
          fun q _ => .ok q, .error (mkErr "x"), .ok []⟩
        ⟨"5", "0", [], some "AA", some "repA", none⟩
          (some "repNew")).state.representative = some "repNew" :=
  ⟨rfl, rfl, rfl, rfl⟩

/-- C7 counterexample: when the remote reports `'Account not found'`,
`sync()` raises no error but does NOT settle the wallet to the zero-state
defaults — a stale snapshot (balance `"7"`, non-null frontier) is left
exactly as it was. -/
theorem sync_not_found_keeps_stale_state :
    sync ⟨fun _ => "H", fun _ _ => .ok none, fun _ _ _ => false,
        fun _ _ => .error (mkErr "x"), .error (mkErr "Account not found"), .ok []⟩
      ⟨"7", "1", [⟨"AB", "1"⟩], some "AA", some "r", none⟩ =
      (.ok (), ⟨"7", "1", [⟨"AB", "1"⟩], some "AA", some "r", none⟩) ∧
    ("7" : String) ≠ "0" ∧ (some "AA" : Option String) ≠ none := by
  refine ⟨rfl, by decide, by decide⟩

/-- C7 (amended): when `accountInfo` fails with message
`'Account not found'`, `sync()` raises no error and leaves the state
unchanged (so a never-opened wallet started from the defaults keeps
frontier `null` and balance `"0"`); an `accountInfo` failure with any
other message propagates unmodified with the state unchanged, and a
receivable-fetch failure with any other message also propagates. -/
theorem sync_error_handling (env : WalletEnv) (s : NanoWalletState) :
    (∀ e, env.accountInfo = .error e → e.message = "Account not found" →
      sync env s = (.ok (), s)) ∧
    (∀ e, env.accountInfo = .error e → e.message ≠ "Account not found" →
      sync env s = (.error e, s)) ∧
    (∀ info e, env.accountInfo = .ok info → env.receivableR = .error e →
      e.message ≠ "Account not found" → (sync env s).1 = .error e) := by
  refine ⟨?_, ?_, ?_⟩
  · intro e he hm
    unfold sync
    rw [he]
    dsimp only
    rw [if_pos hm]
  · intro e he hm
    unfold sync
    rw [he]
    dsimp only
    rw [if_neg hm]
  · intro info e he hr hm
    unfold sync getReceivable
    rw [he]
    dsimp only
    rw [hr]
    dsimp only
    rw [if_neg hm]

/-- Witness for C7 on the default zero-state: not-found is swallowed
leaving the defaults, any other error propagates unmodified. -/
theorem sync_error_handling_witness :
    sync ⟨fun _ => "H", fun _ _ => .ok none, fun _ _ _ => false,
        fun _ _ => .error (mkErr "x"), .error (mkErr "Account not found"), .ok []⟩
      ⟨"0", "0", [], none, none, none⟩ =
      (.ok (), ⟨"0", "0", [], none, none, none⟩) ∧
    sync ⟨fun _ => "H", fun _ _ => .ok none, fun _ _ _ => false,
        fun _ _ => .error (mkErr "x"), .error (mkErr "boom"), .ok []⟩
      ⟨"0", "0", [], none, none, none⟩ =
      (.error (mkErr "boom"), ⟨"0", "0", [], none, none, none⟩) := by
  constructor
  · exact (sync_error_handling ⟨fun _ => "H", fun _ _ => .ok none, fun _ _ _ => false,
        fun _ _ => .error (mkErr "x"), .error (mkErr "Account not found"), .ok []⟩
      ⟨"0", "0", [], none, none, none⟩).1 (mkErr "Account not found") rfl rfl
  · exact (sync_error_handling ⟨fun _ => "H", fun _ _ => .ok none, fun _ _ _ => false,
        fun _ _ => .error (mkErr "x"), .error (mkErr "boom"), .ok []⟩
      ⟨"0", "0", [], none, none, none⟩).2.1 (mkErr "boom") rfl (by decide)

theorem checkBalance_neg (n : Int) (hn : n < 0) :
    checkBalance (intToString n) = false := by
  unfold intToString
  rw [if_pos hn]
  unfold checkBalance allDigits
  have h2 : ("-" : String).data = ['-'] := rfl
  rw [String.data_append, h2]
  have h1 : digitVal '-' = none := rfl
  simp [h1]

end WalletModel

namespace WalletModel

open NanoWalletProof

/-- C3 counterexample: `send` with balance `"5"` and amount `"7"` fails
before any work request or submission, but block construction DOES occur
— the external primitive is invoked with the negative balance `"-2"` and
rejects it — contradicting the claim that no block construction
occurs. -/
theorem send_negative_invokes_block_construction :
    (send ⟨"priv", "repA", "PK"⟩
        ⟨fun _ => "HH", fun _ _ => .ok (some "W"), fun _ _ _ => true,
          fun q _ => .ok q, .error (mkErr "x"), .ok []⟩
        ⟨"5", "0", [], some "AA", some "repA", none⟩ "D" "7").res =
      .error (mkErr "Balance is not valid") ∧
    (send ⟨"priv", "repA", "PK"⟩
        ⟨fun _ => "HH", fun _ _ => .ok (some "W"), fun _ _ _ => true,
          fun q _ => .ok q, .error (mkErr "x"), .ok []⟩
        ⟨"5", "0", [], some "AA", some "repA", none⟩ "D" "7").events =
      [Ev.blockConstruction] ∧
    bigMinus "5" "7" = "-2" :=
  ⟨rfl, rfl, rfl⟩

/-- C3 (amended): when the frontier is non-null and the stored balance
minus the requested amount is negative, `send` fails fast with the
external primitive's `'Balance is not valid'` error raised during block
construction, before any work acquisition, network I/O or store update:
the state is exactly the initial one and the only event is the
block-construction attempt; the balance is never clamped to zero or
committed negative. -/
theorem send_negative_fails_fast (cfg : WalletConfig) (env : WalletEnv)
    (s : NanoWalletState) (dest amount prev : String) (a b : Int)
    (hf : s.frontier = some prev)
    (ha : parseDecInt s.balance = some a) (hb : parseDecInt amount = some b)
    (hneg : a - b < 0) :
    (send cfg env s dest amount).res = .error (mkErr "Balance is not valid") ∧
    (send cfg env s dest amount).state = s ∧
    (send cfg env s dest amount).events = [Ev.blockConstruction] := by
  have hbm : bigMinus s.balance amount = intToString (a - b) := by
    unfold bigMinus
    rw [ha, hb]
  have hcb : createBlock env ⟨some prev, cfg.representative,
      bigMinus s.balance amount, some dest⟩ =
      .error (mkErr "Balance is not valid") := by
    unfold createBlock
    have hfalse : checkBalance (bigMinus s.balance amount) = false := by
      rw [hbm]
      exact checkBalance_neg _ hneg
    simp [hfalse]
  unfold send
  rw [hf]
  dsimp only
  rw [hcb]
  exact ⟨rfl, rfl, rfl⟩

/-- Witness for C3 at balance `"5"`, amount `"7"`. -/
theorem send_negative_fails_fast_witness :
    (send ⟨"priv", "repA", "PK"⟩
        ⟨fun _ => "HH", fun _ _ => .ok (some "W"), fun _ _ _ => true,
          fun q _ => .ok q, .error (mkErr "x"), .ok []⟩
        ⟨"5", "0", [], some "AA", some "repA", none⟩ "D" "7").res =
      .error (mkErr "Balance is not valid") ∧
    (send ⟨"priv", "repA", "PK"⟩
        ⟨fun _ => "HH", fun _ _ => .ok (some "W"), fun _ _ _ => true,
          fun q _ => .ok q, .error (mkErr "x"), .ok []⟩
        ⟨"5", "0", [], some "AA", some "repA", none⟩ "D" "7").state =
      ⟨"5", "0", [], some "AA", some "repA", none⟩ := by
  have h := send_negative_fails_fast ⟨"priv", "repA", "PK"⟩
      ⟨fun _ => "HH", fun _ _ => .ok (some "W"), fun _ _ _ => true,
        fun q _ => .ok q, .error (mkErr "x"), .ok []⟩
      ⟨"5", "0", [], some "AA", some "repA", none⟩ "D" "7" "AA" 5 7
      rfl rfl rfl (by decide)
  exact ⟨h.1, h.2.1⟩

theorem finishOp_workTargets (env : WalletEnv) (s : NanoWalletState)
    (hash wtHash wtThr : String) (mkP : NanoWalletState → Patch)
    (rep : Option String) :
    ∀ pr ∈ workTargets (finishOp env s hash wtHash wtThr mkP rep).events,
      pr = (wtHash, wtThr) := by
  unfold finishOp
  rcases hgw : getWork env s wtHash wtThr with ⟨res, s1, evs⟩
  have hsp := getWork_spec env s wtHash wtThr
  rw [hgw] at hsp
  obtain ⟨_, _, _, h4⟩ := hsp
  have hbc : ∀ l : List Ev, workTargets (Ev.blockConstruction :: l) = workTargets l := by
    intro l
    simp [workTargets]
  have hps : ∀ l : List Ev, ∀ p : Patch,
      workTargets (l ++ [Ev.processSubmission, Ev.update p]) = workTargets l := by
    intro l p
    simp [workTargets]
  have hps1 : ∀ l : List Ev,
      workTargets (l ++ [Ev.processSubmission]) = workTargets l := by
    intro l
    simp [workTargets]
  cases res with
  | error e =>
    intro pr hpr
    rw [hbc, h4] at hpr
    simpa using hpr
  | ok w =>
    dsimp only
    cases hpr : env.process hash w with
    | error e =>
      dsimp only
      intro pr hmem
      rw [hps1, hbc, h4] at hmem
      simpa using hmem
    | ok reported =>
      dsimp only
      by_cases hre : reported = hash
      · rw [if_pos hre]
        intro pr hmem
        rw [hps, hbc, h4] at hmem
        simpa using hmem
      · rw [if_neg hre]
        intro pr hmem
        rw [hps1, hbc, h4] at hmem
        simpa using hmem

end WalletModel

namespace WalletModel

open NanoWalletProof

theorem receive_workTargets (cfg : WalletConfig) (env : WalletEnv)
    (s : NanoWalletState) (link : String) :
    ∀ pr ∈ workTargets (receive cfg env s link).events,
      pr = (s.frontier.getD cfg.publicKey, RECEIVE_DIFFICULTY) := by
  unfold receive
  cases hf : s.receivableBlocks.find? fun b => decide (b.blockHash = upStr link) with
  | none => intro pr hpr; simp [workTargets] at hpr
  | some b =>
    simp only [hf]
    by_cases hb : b.amount = ""
    · simp only [hb, if_true]
      intro pr hpr; simp [workTargets] at hpr
    · rw [if_neg hb]
      cases hcb : createBlock env ⟨s.frontier, cfg.representative,
          bigPlus s.balance b.amount, some (upStr link)⟩ with
      | error e => intro pr hpr; simp [workTargets] at hpr
      | ok hash => exact finishOp_workTargets env s hash _ _ _ _

theorem send_workTargets (cfg : WalletConfig) (env : WalletEnv)
    (s : NanoWalletState) (dest amount prev : String) (hf : s.frontier = some prev) :
    ∀ pr ∈ workTargets (send cfg env s dest amount).events,
      pr = (prev, SEND_DIFFICULTY) := by
  unfold send
  rw [hf]
  dsimp only
  cases hcb : createBlock env ⟨some prev, cfg.representative,
      bigMinus s.balance amount, some dest⟩ with
  | error e => intro pr hpr; simp [workTargets] at hpr
  | ok hash => exact finishOp_workTargets env s hash _ _ _ _

theorem sweep_workTargets (cfg : WalletConfig) (env : WalletEnv)
    (s : NanoWalletState) (dest prev : String) (hf : s.frontier = some prev) :
    ∀ pr ∈ workTargets (sweep cfg env s dest).events,
      pr = (prev, SEND_DIFFICULTY) := by
  unfold sweep
  rw [hf]
  dsimp only
  cases hcb : createBlock env ⟨some prev, cfg.representative, "0", some dest⟩ with
  | error e => intro pr hpr; simp [workTargets] at hpr
  | ok hash => exact finishOp_workTargets env s hash _ _ _ _

theorem setRepresentative_workTargets (cfg : WalletConfig) (env : WalletEnv)
    (s : NanoWalletState) (acc : Option String) (prev : String)
    (hf : s.frontier = some prev) :
    ∀ pr ∈ workTargets (setRepresentative cfg env s acc).events,
      pr = (prev, SEND_DIFFICULTY) := by
  unfold setRepresentative
  rw [hf]
  dsimp only
  cases hcb : createBlock env ⟨some prev, repArg acc cfg, s.balance, none⟩ with
  | error e => intro pr hpr; simp [workTargets] at hpr
  | ok hash => exact finishOp_workTargets env s hash _ _ _ _

/-- C5 (amended): the proof-of-work target of `receive` is the current
frontier — the account's own public-key hash when the account is being
opened (frontier null) — NOT the link hash; for send, sweep and
setRepresentative it is the current frontier; and receive's difficulty
threshold, read as an unsigned hexadecimal integer, is lower than
send/sweep/change's (thresholds modelled from the spec, which fixes only
this ordering). -/
theorem work_acquisition_targets (cfg : WalletConfig) (env : WalletEnv)
    (s : NanoWalletState) (link dest amount : String) (acc : Option String) :
    (∀ pr ∈ workTargets (receive cfg env s link).events,
      pr = (s.frontier.getD cfg.publicKey, RECEIVE_DIFFICULTY)) ∧
    (∀ prev, s.frontier = some prev →
      (∀ pr ∈ workTargets (send cfg env s dest amount).events,
        pr = (prev, SEND_DIFFICULTY)) ∧
      (∀ pr ∈ workTargets (sweep cfg env s dest).events,
        pr = (prev, SEND_DIFFICULTY)) ∧
      (∀ pr ∈ workTargets (setRepresentative cfg env s acc).events,
        pr = (prev, SEND_DIFFICULTY))) ∧
    hexPrefixVal RECEIVE_DIFFICULTY = some 18446741874686296064 ∧
    hexPrefixVal SEND_DIFFICULTY = some 18446744039349813248 ∧
    (18446741874686296064 : Nat) < 18446744039349813248 := by
  refine ⟨receive_workTargets cfg env s link, ?_, rfl, rfl, by norm_num⟩
  intro prev hf
  exact ⟨send_workTargets cfg env s dest amount prev hf,
    sweep_workTargets cfg env s dest prev hf,
    setRepresentative_workTargets cfg env s acc prev hf⟩

/-- C5 counterexample: a successful `receive` of the listed block
`"BB"` on a wallet whose frontier is `"AA"` acquires work for `"AA"` (the
frontier) only — not for the link hash `"BB"` the claim names. -/
theorem receive_work_target_not_link :
    workTargets (receive ⟨"priv", "repA", "PK"⟩
        ⟨fun _ => "HH", fun _ _ => .ok (some "W"), fun _ _ _ => true,
          fun q _ => .ok q, .error (mkErr "x"), .ok []⟩
        ⟨"5", "1", [⟨"BB", "1"⟩], some "AA", some "repA", none⟩ "BB").events =
      [("AA", RECEIVE_DIFFICULTY)] ∧
    ("AA" : String) ≠ "BB" ∧
    (receive ⟨"priv", "repA", "PK"⟩
        ⟨fun _ => "HH", fun _ _ => .ok (some "W"), fun _ _ _ => true,
          fun q _ => .ok q, .error (mkErr "x"), .ok []⟩
        ⟨"5", "1", [⟨"BB", "1"⟩], some "AA", some "repA", none⟩ "BB").res =
      .ok "HH" :=
  ⟨rfl, by decide, rfl⟩

/-- Witness for C5 at a concrete successful receive and send. -/
theorem work_acquisition_targets_witness :
    (("AA", RECEIVE_DIFFICULTY) : String × String) =
      ((some "AA" : Option String).getD "PK", RECEIVE_DIFFICULTY) ∧
    (("AA", SEND_DIFFICULTY) : String × String) = ("AA", SEND_DIFFICULTY) := by
  have h := work_acquisition_targets ⟨"priv", "repA", "PK"⟩
      ⟨fun _ => "HH", fun _ _ => .ok (some "W"), fun _ _ _ => true,
        fun q _ => .ok q, .error (mkErr "x"), .ok []⟩
      ⟨"5", "1", [⟨"BB", "1"⟩], some "AA", some "repA", none⟩ "BB" "D" "1" none
  constructor
  · exact h.1 ("AA", RECEIVE_DIFFICULTY) (by decide)
  · exact (h.2.1 "AA" rfl).1 ("AA", SEND_DIFFICULTY) (by decide)

end WalletModel

namespace WalletModel

open NanoWalletProof

theorem getWork_miss (env : WalletEnv) (s : NanoWalletState) (hash threshold : String)
    (hmiss : ∀ w, s.work = some w →
      ¬(w.hash = hash ∧ jsHexGe w.threshold threshold = true)) :
    getWork env s hash threshold =
      ((getWorkNet env s hash threshold).1, (getWorkNet env s hash threshold).2.1,
        Ev.workAcquisition hash threshold :: (getWorkNet env s hash threshold).2.2) := by
  unfold getWork
  rcases hnet : getWorkNet env s hash threshold with ⟨r1, r2, r3⟩
  rcases hw : s.work with _ | w
  · rfl
  · have hm := hmiss w hw
    dsimp only
    rw [if_neg hm]

/-- C6 (amended): `getWork` reuses the cached work exactly when the
cached hash equals the requested hash and the two thresholds compare as
`parseInt(_, 16)` doubles (`jsHexGe`, 53-bit rounding — not exact
unsigned integers), returning the cached solution with no network call;
otherwise a single `work_generate` network call occurs, and the cache is
overwritten with `{hash, threshold, solution}` before the solution is
returned only when the generated work is present, non-empty and valid;
an RPC failure, absent/empty work or invalid work fails the call with
the cache and the rest of the state untouched. -/
theorem getWork_cache_semantics (env : WalletEnv) (s : NanoWalletState)
    (hash threshold : String) :
    (∀ w, s.work = some w → w.hash = hash → jsHexGe w.threshold threshold = true →
      getWork env s hash threshold =
        (.ok w.work, s, [Ev.workAcquisition hash threshold])) ∧
    ((∀ w, s.work = some w →
        ¬(w.hash = hash ∧ jsHexGe w.threshold threshold = true)) →
      workNetCalls (getWork env s hash threshold).2.2 = [(hash, threshold)] ∧
      (∀ e, env.workGenerate hash threshold = .error e →
        getWork env s hash threshold = (.error e, s,
          [Ev.workAcquisition hash threshold, Ev.workRequest hash threshold])) ∧
      (env.workGenerate hash threshold = .ok none →
        getWork env s hash threshold = (.error (mkErr "No work"), s,
          [Ev.workAcquisition hash threshold, Ev.workRequest hash threshold])) ∧
      (env.workGenerate hash threshold = .ok (some "") →
        getWork env s hash threshold = (.error (mkErr "No work"), s,
          [Ev.workAcquisition hash threshold, Ev.workRequest hash threshold])) ∧
      (∀ w, env.workGenerate hash threshold = .ok (some w) → w ≠ "" →
        env.validateWork w hash threshold = false →
        getWork env s hash threshold = (.error (mkErr "Invalid work"), s,
          [Ev.workAcquisition hash threshold, Ev.workRequest hash threshold])) ∧
      (∀ w, env.workGenerate hash threshold = .ok (some w) → w ≠ "" →
        env.validateWork w hash threshold = true →
        getWork env s hash threshold = (.ok w,
          applyPatch s { work := some (some ⟨hash, threshold, w⟩) },
          [Ev.workAcquisition hash threshold, Ev.workRequest hash threshold,
            Ev.update { work := some (some ⟨hash, threshold, w⟩) }]))) := by
  constructor
  · intro w hw hh hjs
    unfold getWork
    rw [hw]
    dsimp only
    rw [if_pos ⟨hh, hjs⟩]
  · intro hmiss
    have hred := getWork_miss env s hash threshold hmiss
    refine ⟨?_, ?_, ?_, ?_, ?_, ?_⟩
    · rw [hred]
      have hn := getWorkNet_spec env s hash threshold
      rw [show workNetCalls (Ev.workAcquisition hash threshold ::
          (getWorkNet env s hash threshold).2.2) =
          workNetCalls (getWorkNet env s hash threshold).2.2 from by
        simp [workNetCalls]]
      exact hn.2.2.2.2
    · intro e hgen
      rw [hred]
      unfold getWorkNet
      rw [hgen]
    · intro hgen
      rw [hred]
      unfold getWorkNet
      rw [hgen]
    · intro hgen
      rw [hred]
      unfold getWorkNet
      rw [hgen]
      rfl
    · intro w hgen hne hval
      rw [hred]
      unfold getWorkNet
      rw [hgen]
      dsimp only
      rw [if_neg hne, hval]
      rfl
    · intro w hgen hne hval
      rw [hred]
      unfold getWorkNet
      rw [hgen]
      dsimp only
      rw [if_neg hne, hval]
      rfl

/-- C6 counterexample: with work cached at threshold
`fffffff7ffffffff` — strictly below the requested `fffffff800000000` as
unsigned integers — `getWork` still reuses the cache with no network
call, because both thresholds round to the same IEEE-754 double under
`parseInt`; the claim's unsigned-integer reading requires a network call
here. -/
theorem getWork_reuses_insufficient_cache :
    getWork ⟨fun _ => "H", fun _ _ => .error (mkErr "network used"),
        fun _ _ _ => false, fun _ _ => .error (mkErr "x"),
        .error (mkErr "x"), .ok []⟩
      ⟨"0", "0", [], none, none, some ⟨"AB", "fffffff7ffffffff", "W"⟩⟩
      "AB" "fffffff800000000" =
      (.ok "W", ⟨"0", "0", [], none, none, some ⟨"AB", "fffffff7ffffffff", "W"⟩⟩,
        [Ev.workAcquisition "AB" "fffffff800000000"]) ∧
    hexPrefixVal "fffffff7ffffffff" = some 18446744039349813247 ∧
    hexPrefixVal "fffffff800000000" = some 18446744039349813248 ∧
    (18446744039349813247 : Nat) < 18446744039349813248 :=
  ⟨rfl, rfl, rfl, by norm_num⟩

/-- Witness for C6: a concrete cache hit without network I/O and a
concrete cache miss that generates, validates and overwrites. -/
theorem getWork_cache_semantics_witness :
    getWork ⟨fun _ => "H", fun _ _ => .error (mkErr "network used"),
        fun _ _ _ => false, fun _ _ => .error (mkErr "x"),
        .error (mkErr "x"), .ok []⟩
      ⟨"0", "0", [], none, none, some ⟨"AB", "ff", "W"⟩⟩ "AB" "0f" =
      (.ok "W", ⟨"0", "0", [], none, none, some ⟨"AB", "ff", "W"⟩⟩,
        [Ev.workAcquisition "AB" "0f"]) ∧
    getWork ⟨fun _ => "H", fun _ _ => .ok (some "W2"), fun _ _ _ => true,
        fun _ _ => .error (mkErr "x"), .error (mkErr "x"), .ok []⟩
      ⟨"0", "0", [], none, none, none⟩ "AB" "0f" =
      (.ok "W2", applyPatch ⟨"0", "0", [], none, none, none⟩
          { work := some (some ⟨"AB", "0f", "W2"⟩) },
        [Ev.workAcquisition "AB" "0f", Ev.workRequest "AB" "0f",
          Ev.update { work := some (some ⟨"AB", "0f", "W2"⟩) }]) := by
  constructor
  · exact (getWork_cache_semantics ⟨fun _ => "H",
        fun _ _ => .error (mkErr "network used"), fun _ _ _ => false,
        fun _ _ => .error (mkErr "x"), .error (mkErr "x"), .ok []⟩
      ⟨"0", "0", [], none, none, some ⟨"AB", "ff", "W"⟩⟩ "AB" "0f").1
      ⟨"AB", "ff", "W"⟩ rfl rfl rfl
  · exact ((getWork_cache_semantics ⟨fun _ => "H", fun _ _ => .ok (some "W2"),
        fun _ _ _ => true, fun _ _ => .error (mkErr "x"),
        .error (mkErr "x"), .ok []⟩
      ⟨"0", "0", [], none, none, none⟩ "AB" "0f").2
      (by intro w hw; simp at hw)).2.2.2.2.2 "W2" rfl (by decide) rfl

end WalletModel

namespace NanoWalletProof

theorem upChar_idem (c : Char) : upChar (upChar c) = upChar c := by
  generalize h : upChar c = d
  unfold upChar at h
  split at h <;> subst h <;> first
    | rfl
    | (unfold upChar; split <;> simp_all)

theorem upStr_idem (s : String) : upStr (upStr s) = upStr s := by
  have hfun : upChar ∘ upChar = upChar := funext upChar_idem
  unfold upStr
  simp [List.map_map, hfun]

end NanoWalletProof

namespace WalletModel

open NanoWalletProof

/-- C10: `receive(link)` behaves identically to
`receive(link.toUpperCase())`; the receivable block matched by the
lookup always has exactly the upper-cased link as its hash (so a block
whose stored hash is not upper case can never be matched); and on
success the committed receivable list is the original list minus the
entries with that upper-cased hash. -/
theorem receive_uppercase_normalization (cfg : WalletConfig) (env : WalletEnv)
    (s : NanoWalletState) (link : String) :
    receive cfg env s link = receive cfg env s (upStr link) ∧
    (∀ b, s.receivableBlocks.find?
        (fun bb => decide (bb.blockHash = upStr link)) = some b →
      b.blockHash = upStr link) ∧
    (∀ h, (receive cfg env s link).res = .ok h →
      (receive cfg env s link).state.receivableBlocks =
        s.receivableBlocks.filter fun bb => decide (bb.blockHash ≠ upStr link)) := by
  refine ⟨?_, ?_, ?_⟩
  · unfold receive
    rw [upStr_idem]
  · intro b hb
    have hp := List.find?_some hb
    exact of_decide_eq_true hp
  · intro h hres
    unfold receive at hres ⊢
    cases hf : s.receivableBlocks.find?
        fun bb => decide (bb.blockHash = upStr link) with
    | none =>
      try rw [hf] at hres
      simp at hres
    | some b =>
      try rw [hf] at hres
      try dsimp only at hres
      try dsimp only
      by_cases hb : b.amount = ""
      · rw [if_pos hb] at hres; simp at hres
      · rw [if_neg hb] at hres ⊢
        cases hcb : createBlock env ⟨s.frontier, cfg.representative,
            bigPlus s.balance b.amount, some (upStr link)⟩ with
        | error e =>
          try rw [hcb] at hres
          simp at hres
        | ok hash =>
          try rw [hcb] at hres
          try rw [hcb]
          try dsimp only at hres
          try dsimp only
          unfold finishOp at hres ⊢
          rcases hgw : getWork env s (s.frontier.getD cfg.publicKey)
              RECEIVE_DIFFICULTY with ⟨res, s1, evs⟩
          have hsp := getWork_spec env s (s.frontier.getD cfg.publicKey)
              RECEIVE_DIFFICULTY
          rw [hgw] at hsp
          try rw [hgw] at hres
          try rw [hgw]
          obtain ⟨h1, _, _, _⟩ := hsp
          cases res with
          | error e => simp at hres
          | ok w =>
            try dsimp only at hres
            try dsimp only
            cases hpr : env.process hash w with
            | error e =>
              try rw [hpr] at hres
              simp at hres
            | ok reported =>
              try rw [hpr] at hres
              try rw [hpr]
              try dsimp only at hres
              try dsimp only
              by_cases hre : reported = hash
              · rw [if_pos hre] at hres ⊢
                have hrb : s1.receivableBlocks = s.receivableBlocks :=
                  congrArg (fun t => t.2.2.1) h1
                dsimp only [applyPatch, receivePatch]
                rw [hrb]
                rfl
              · rw [if_neg hre] at hres
                simp at hres

/-- Witness for C10: the lower-case argument `"bb"` matches and removes
the stored upper-case block `"BB"`. -/
theorem receive_uppercase_normalization_witness :
    (⟨"BB", "1"⟩ : ReceivableBlock).blockHash = upStr "bb" ∧
    (receive ⟨"priv", "repA", "PK"⟩
        ⟨fun _ => "HH", fun _ _ => .ok (some "W"), fun _ _ _ => true,
          fun q _ => .ok q, .error (mkErr "x"), .ok []⟩
        ⟨"5", "1", [⟨"BB", "1"⟩], some "AA", some "repA", none⟩
        "bb").state.receivableBlocks =
      ([⟨"BB", "1"⟩] : List ReceivableBlock).filter
        fun bb => decide (bb.blockHash ≠ upStr "bb") := by
  have h := receive_uppercase_normalization ⟨"priv", "repA", "PK"⟩
      ⟨fun _ => "HH", fun _ _ => .ok (some "W"), fun _ _ _ => true,
        fun q _ => .ok q, .error (mkErr "x"), .ok []⟩
      ⟨"5", "1", [⟨"BB", "1"⟩], some "AA", some "repA", none⟩ "bb"
  exact ⟨h.2.1 ⟨"BB", "1"⟩ (by decide), h.2.2 "HH" (by rfl)⟩

end WalletModel
